import Mathlib

/-!
Shallow embedding of the Product Catalog microservice core (Go) in Lean 4.

Modelling conventions:
- Go `time.Time` values are modelled as `Int` (nanoseconds since the epoch);
  `t.Before u` is `t < u`, `t.After u` is `t > u`, `t.Equal u` is `t = u`,
  and a `time.Duration` difference `fin.Sub(inicio)` is `fin - inicio` in
  nanoseconds, so `d.Hours() > 24*365` is `d > 8760 * 3600 * 1000000000`.
- Go `float32` reputations are modelled as `ℚ` with the same comparisons.
- Methods that mutate their receiver are modelled as functions returning the
  updated value; methods that also return an error become `Except String`.
  Error strings mirror the Go sources (quote characters are omitted).
- Go heap pointers are modelled explicitly: a heap is an association list
  from addresses (`Nat`) to values, with a bump allocator counter.  The two
  in-memory repositories store addresses, exactly as the Go maps store
  pointers, so aliasing behaviour of `GetByID` is preserved.
- Calls to `time.Now()` inside an operation become an explicit `now : Int`
  parameter; the UUID generated inside `ProductorRepository.Save` becomes an
  explicit `genID : String` parameter.
-/

namespace producto

/-- Value object NombreProducto (valueobjects.go). -/
structure NombreProducto where
  Value : String
deriving DecidableEq

/-- Value object DescripcionProducto (valueobjects.go). -/
structure DescripcionProducto where
  Value : String
deriving DecidableEq

/-- Go `type Categoria string`. -/
abbrev Categoria := String

/-- Go `type TipoProduccion string`. -/
abbrev TipoProduccion := String

/-- Value object TemporadaLocal: a season window with start (Inicio) and end (Fin), both in nanoseconds. -/
structure TemporadaLocal where
  Inicio : Int
  Fin : Int
deriving DecidableEq

/-- Constructor NewTemporadaLocal (valueobjects.go): validates end not before
start, end not before `now` (Go calls `time.Now()`; here a parameter) and a
span of at most 24*365 hours. -/
def NewTemporadaLocal (inicio fin now : Int) : Except String TemporadaLocal :=
  if fin < inicio then
    .error "la fecha de fin no puede ser antes del inicio"
  else if fin < now then
    .error "la fecha de fin no puede estar en el pasado"
  else if fin - inicio > 8760 * 3600 * 1000000000 then
    .error "la temporada no puede durar mas de un anio"
  else
    .ok { Inicio := inicio, Fin := fin }

/-- Method TemporadaLocal.IsInSeason (valueobjects.go): `(now.Equal(Inicio) ||
now.After(Inicio)) && (now.Equal(Fin) || now.Before(Fin))`. -/
def TemporadaLocal.IsInSeason (t : TemporadaLocal) (now : Int) : Bool :=
  (now == t.Inicio || decide (now > t.Inicio)) &&
  (now == t.Fin || decide (now < t.Fin))

/-- Value object EstadoDisponibilidad: a wrapped availability-state string. -/
structure EstadoDisponibilidad where
  Value : String
deriving DecidableEq

-- Availability-state constants from valueobjects.go.
def Disponible : String := "Disponible"
def Agotado : String := "Agotado"
def Excedente : String := "Excedente"

/-- Value object Ubicacion (producto package). -/
structure Ubicacion where
  ZonaVeredal : String
  Finca : String
deriving DecidableEq

/-- Value object Imagen. -/
structure Imagen where
  URL : String
  DescripcionCorta : String
deriving DecidableEq

/-- Domain event ProductoPublicado (events.go). -/
structure ProductoPublicado where
  ProductoID : String
  At : Int
deriving DecidableEq

/-- Domain event ProductoMarcadoComoExcedente (events.go). -/
structure ProductoMarcadoComoExcedente where
  ProductoID : String
  At : Int
deriving DecidableEq

/-- Domain event ProductoAgotado (events.go). -/
structure ProductoAgotado where
  ProductoID : String
  At : Int
deriving DecidableEq

/-- Closed sum of the product domain events; the Go code buffers them as
`[]interface{}` whose elements are exactly these three struct types. -/
inductive ProductoEvent where
  | publicado : ProductoPublicado → ProductoEvent
  | marcadoComoExcedente : ProductoMarcadoComoExcedente → ProductoEvent
  | agotado : ProductoAgotado → ProductoEvent
deriving DecidableEq

/-- Aggregate root ProductoAgroecologico (producto.go). -/
structure ProductoAgroecologico where
  ID : String
  Nombre : NombreProducto
  Descripcion : DescripcionProducto
  Categoria : Categoria
  TipoProduccion : TipoProduccion
  Temporada : TemporadaLocal
  Estado : EstadoDisponibilidad
  Ubicacion : Ubicacion
  Imagen : Imagen
  ProductorID : String
  publicadoEn : Int
  eventsPending : List ProductoEvent
deriving DecidableEq

/-- Constructor NewProductoAgroecologico (producto.go): rejects an empty
producer reference, starts in state Disponible, stamps `publicadoEn` and
queues a ProductoPublicado event (both `time.Now()` calls become `now`). -/
def NewProductoAgroecologico (id : String) (nombre : NombreProducto)
    (desc : DescripcionProducto) (categoria : Categoria)
    (tipo : TipoProduccion) (temporada : TemporadaLocal)
    (ubicacion : Ubicacion) (imagen : Imagen) (productorID : String)
    (now : Int) : Except String ProductoAgroecologico :=
  if productorID = "" then
    .error "productorID cannot be empty"
  else
    .ok { ID := id
          Nombre := nombre
          Descripcion := desc
          Categoria := categoria
          TipoProduccion := tipo
          Temporada := temporada
          Estado := { Value := Disponible }
          Ubicacion := ubicacion
          Imagen := imagen
          ProductorID := productorID
          publicadoEn := now
          eventsPending := [.publicado { ProductoID := id, At := now }] }

/-- Method MarcarComoExcedente (producto.go): fails when `now` is in season,
otherwise sets state Excedente and queues a ProductoMarcadoComoExcedente
event stamped with `now`. -/
def ProductoAgroecologico.MarcarComoExcedente (p : ProductoAgroecologico)
    (now : Int) : Except String ProductoAgroecologico :=
  if p.Temporada.IsInSeason now then
    .error "no se puede marcar como Excedente dentro de la temporada"
  else
    .ok { p with
          Estado := { Value := Excedente }
          eventsPending := p.eventsPending ++
            [.marcadoComoExcedente { ProductoID := p.ID, At := now }] }

/-- Method Agotar (producto.go): only a Disponible product may be depleted;
the event timestamp comes from `time.Now()`, here `now`. -/
def ProductoAgroecologico.Agotar (p : ProductoAgroecologico)
    (now : Int) : Except String ProductoAgroecologico :=
  if p.Estado.Value ≠ Disponible then
    .error "solo un producto Disponible puede marcarse como Agotado"
  else
    .ok { p with
          Estado := { Value := Agotado }
          eventsPending := p.eventsPending ++
            [.agotado { ProductoID := p.ID, At := now }] }

/-- Method RecalcularDisponibilidad (producto.go): in season sets Disponible;
out of season sets Agotado unless the current state is Excedente. -/
def ProductoAgroecologico.RecalcularDisponibilidad
    (p : ProductoAgroecologico) (now : Int) : ProductoAgroecologico :=
  if p.Temporada.IsInSeason now then
    { p with Estado := { Value := Disponible } }
  else if p.Estado.Value ≠ Excedente then
    { p with Estado := { Value := Agotado } }
  else
    p

end producto

namespace productor

/-- Value object NombreProductor (productor/valueobjects.go). -/
structure NombreProductor where
  Value : String
deriving DecidableEq

/-- Value object Ubicacion of the productor package (same shape as the one in
the producto package; Go defines it twice). -/
structure Ubicacion where
  ZonaVeredal : String
  Finca : String
deriving DecidableEq

/-- Value object EstadoVerificacion: a wrapped verification-state string. -/
structure EstadoVerificacion where
  Value : String
deriving DecidableEq

-- Verification-state constants from productor/valueobjects.go.
def Verificado : String := "Verificado"
def NoVerificado : String := "No Verificado"
def EnProceso : String := "En Proceso"

/-- Method EstadoVerificacion.IsVerificado. -/
def EstadoVerificacion.IsVerificado (e : EstadoVerificacion) : Bool :=
  e.Value == Verificado

/-- Method EstadoVerificacion.IsEnProceso. -/
def EstadoVerificacion.IsEnProceso (e : EstadoVerificacion) : Bool :=
  e.Value == EnProceso

/-- Value object EstadoActividad: a wrapped activity-state string. -/
structure EstadoActividad where
  Value : String
deriving DecidableEq

-- Activity-state constants from productor/valueobjects.go.
def Activo : String := "Activo"
def Inactivo : String := "Inactivo"
def Suspendido : String := "Suspendido"

/-- Method EstadoActividad.IsActivo. -/
def EstadoActividad.IsActivo (e : EstadoActividad) : Bool :=
  e.Value == Activo

/-- Go `type Reputacion float32`, modelled as a rational number. -/
abbrev Reputacion := ℚ

/-- Value object PracticasDeCultivo. -/
structure PracticasDeCultivo where
  Descripcion : String
deriving DecidableEq

/-- Domain event ProductorEnVerificacion. -/
structure ProductorEnVerificacion where
  ProductorID : String
  At : Int
deriving DecidableEq

/-- Domain event ProductorVerificado. -/
structure ProductorVerificado where
  ProductorID : String
  At : Int
deriving DecidableEq

/-- Domain event ReputacionActualizada, carrying the new reputation value. -/
structure ReputacionActualizada where
  ProductorID : String
  NuevaReputacion : Reputacion
  At : Int
deriving DecidableEq

/-- Closed sum of the producer domain events buffered as `[]interface{}`. -/
inductive ProductorEvent where
  | enVerificacion : ProductorEnVerificacion → ProductorEvent
  | verificado : ProductorVerificado → ProductorEvent
  | reputacionActualizada : ReputacionActualizada → ProductorEvent
deriving DecidableEq

/-- Aggregate root Productor (productor.go). -/
structure Productor where
  ID : String
  Nombre : NombreProductor
  Ubicacion : Ubicacion
  EstadoVerificacion : EstadoVerificacion
  EstadoActividad : EstadoActividad
  Reputacion : Reputacion
  PracticasCultivo : PracticasDeCultivo
  eventsPending : List ProductorEvent
deriving DecidableEq

/-- Method PuedePublicar (productor.go): verified AND reputation at least the
minimum AND active. -/
def Productor.PuedePublicar (p : Productor) (minReputacion : ℚ) : Bool :=
  p.EstadoVerificacion.IsVerificado && decide (p.Reputacion ≥ minReputacion) &&
  p.EstadoActividad.IsActivo

/-- Method ActualizarReputacion (productor.go): rejects an out-of-range value
only when the producer is active; otherwise stores the new value and queues a
ReputacionActualizada event only when the value actually changed.  The event
timestamp `time.Now()` becomes `now`. -/
def Productor.ActualizarReputacion (p : Productor)
    (nuevaReputacion : ℚ) (now : Int) : Except String Productor :=
  if (decide (nuevaReputacion < 0) || decide (nuevaReputacion > 5)) &&
      p.EstadoActividad.IsActivo then
    .error "reputacion fuera de rango permitido"
  else
    .ok { p with
          Reputacion := nuevaReputacion
          eventsPending :=
            if p.Reputacion ≠ nuevaReputacion then
              p.eventsPending ++
                [.reputacionActualizada
                  { ProductorID := p.ID
                    NuevaReputacion := nuevaReputacion
                    At := now }]
            else p.eventsPending }

/-- Method IniciarProcesosVerificacion (productor.go): requires an active,
not-yet-verified producer with no verification in progress; moves the
verification state to "En Proceso" and queues a ProductorEnVerificacion
event. -/
def Productor.IniciarProcesosVerificacion (p : Productor)
    (now : Int) : Except String Productor :=
  if !p.EstadoActividad.IsActivo then
    .error "el productor no esta activo"
  else if p.EstadoVerificacion.IsVerificado then
    .error "el productor ya esta verificado"
  else if p.EstadoVerificacion.Value == "En Proceso" then
    .error "ya hay un proceso de verificacion en curso"
  else
    .ok { p with
          EstadoVerificacion := { Value := "En Proceso" }
          eventsPending := p.eventsPending ++
            [.enVerificacion { ProductorID := p.ID, At := now }] }

/-- Method VerificarProductor (productor.go): requires only that the
verification state is "En Proceso" (the activity state is not consulted);
moves it to "Verificado" and queues a ProductorVerificado event. -/
def Productor.VerificarProductor (p : Productor)
    (now : Int) : Except String Productor :=
  if !p.EstadoVerificacion.IsEnProceso then
    .error "el productor no esta en proceso de verificacion"
  else
    .ok { p with
          EstadoVerificacion := { Value := "Verificado" }
          eventsPending := p.eventsPending ++
            [.verificado { ProductorID := p.ID, At := now }] }

end productor

namespace repository

/-- Heap addresses: Go pointers are modelled as natural numbers. -/
abbrev Addr := Nat

/-- Read the value a heap address points to (first matching entry). -/
def heapGet {α : Type} (h : List (Addr × α)) (a : Addr) : Option α :=
  match h with
  | [] => none
  | e :: t => if e.1 = a then some e.2 else heapGet t a

/-- Write through a pointer: replace the value at address `a`. -/
def heapSet {α : Type} (h : List (Addr × α)) (a : Addr) (v : α) :
    List (Addr × α) :=
  match h with
  | [] => []
  | e :: t => (if e.1 = a then (a, v) else e) :: heapSet t a v

/-- Go map indexing `m[id]` for the repositories' identity-keyed maps. -/
def lookupAddr (m : List (String × Addr)) (id : String) : Option Addr :=
  match m with
  | [] => none
  | e :: t => if e.1 = id then some e.2 else lookupAddr t id

/-- ProductoRepository (ProductoRepostioryInterface.go): a map from product
IDs to pointers, plus the Go heap those pointers live in (`heap` with bump
allocator `next` models the runtime heap; the Go struct itself only holds the
map). -/
structure ProductoRepository where
  heap : List (Addr × producto.ProductoAgroecologico)
  next : Addr
  productos : List (String × Addr)

/-- Method ProductoRepository.Save: conflict if the product's ID key already
exists, otherwise store the caller's pointer under that key.  The `.error
"invalid pointer"` branch is a model artifact for a dangling address; in Go,
Save always receives a live pointer. -/
def ProductoRepository.Save (st : ProductoRepository) (addr : Addr) :
    Except String ProductoRepository :=
  match heapGet st.heap addr with
  | none => .error "invalid pointer"
  | some p =>
    match lookupAddr st.productos p.ID with
    | some _ => .error ("El producto con id " ++ p.ID ++ " ya existe")
    | none => .ok { st with productos := (p.ID, addr) :: st.productos }

/-- Method ProductoRepository.GetByID: Go does `response := &prod; return
*response`, which returns the stored pointer itself, so the model returns the
stored address (and its current pointee for convenience), not a copy. -/
def ProductoRepository.GetByID (st : ProductoRepository) (id : String) :
    Except String (Addr × producto.ProductoAgroecologico) :=
  match lookupAddr st.productos id with
  | some a =>
    match heapGet st.heap a with
    | some p => .ok (a, p)
    | none => .error "invalid pointer"
  | none => .error ("No se ha encontrado del producto con id " ++ id)

/-- Method ProductoRepository.UpdateEstadoDisponibilidad: overwrite only the
Estado field of the stored product, in place through the stored pointer. -/
def ProductoRepository.UpdateEstadoDisponibilidad (st : ProductoRepository)
    (id : String) (estado : producto.EstadoDisponibilidad) :
    Except String ProductoRepository :=
  match lookupAddr st.productos id with
  | some a =>
    match heapGet st.heap a with
    | some p =>
      .ok { st with heap := heapSet st.heap a { p with Estado := estado } }
    | none => .error "invalid pointer"
  | none => .error ("No se encontro el producto con id " ++ id)

/-- ProductorRepository (ProductorRepository.go): a map from producer IDs to
pointers, with the heap those pointers live in. -/
structure ProductorRepository where
  heap : List (Addr × productor.Productor)
  next : Addr
  productores : List (String × Addr)

/-- Well-formedness of the modelled heap: every allocated address is below
the bump-allocator counter, so `next` is fresh. -/
def ProductorRepository.WF (st : ProductorRepository) : Prop :=
  ∀ e ∈ st.heap, e.1 < st.next

/-- Method ProductorRepository.Save: Go first overwrites the caller's
producer's ID in place with a fresh UUID (here the parameter `genID`), then
checks for a key conflict and inserts the same pointer.  The result pairs an
optional error message with the post-state (the in-place ID write survives
even the conflict branch, as in Go). -/
def ProductorRepository.Save (st : ProductorRepository) (addr : Addr)
    (genID : String) : Option String × ProductorRepository :=
  match heapGet st.heap addr with
  | none => (some "invalid pointer", st)
  | some pro =>
    let st2 : ProductorRepository :=
      { st with heap := heapSet st.heap addr { pro with ID := genID } }
    match lookupAddr st2.productores genID with
    | some _ => (some ("El producotr con id " ++ genID ++ " ya existe"), st2)
    | none =>
      (none, { st2 with productores := (genID, addr) :: st2.productores })

/-- Method ProductorRepository.GetByID: Go does `response := *prod; return
&response`, allocating a fresh copy of the stored producer; the model
allocates at `next` and returns the fresh address, its value, and the new
state. -/
def ProductorRepository.GetByID (st : ProductorRepository) (id : String) :
    Except String (Addr × productor.Productor × ProductorRepository) :=
  match lookupAddr st.productores id with
  | some a =>
    match heapGet st.heap a with
    | some pro =>
      .ok (st.next, pro,
        { st with
          heap := (st.next, pro) :: st.heap
          next := st.next + 1 })
    | none => .error "invalid pointer"
  | none => .error ("No se ha encontrado el productor con id " ++ id)

end repository

namespace service

/-- Result of a successful PublicarProducto call: the address of the new
product, the domain events handed to the event publisher, and the post-states
of the two repositories. -/
structure PublicarResult where
  productoAddr : repository.Addr
  published : List producto.ProductoEvent
  productoRepo : repository.ProductoRepository
  productorRepo : repository.ProductorRepository

/-- Method CatalogoService.PublicarProducto (catalogoService.go): load the
producer (any repository failure is reported as "productor no encontrado"),
check PuedePublicar, construct the product (which allocates it on the heap),
Save it, then drain and publish its pending events (publishPendingEvents
clears the aggregate's buffer through the stored pointer; publish failures
are ignored by the Go code, so the drained list is simply returned). -/
def PublicarProducto (productorRepo : repository.ProductorRepository)
    (productoRepo : repository.ProductoRepository)
    (productorID productoID : String) (nombre : producto.NombreProducto)
    (desc : producto.DescripcionProducto) (categoria : producto.Categoria)
    (tipo : producto.TipoProduccion) (temporada : producto.TemporadaLocal)
    (ubicacion : producto.Ubicacion) (imagen : producto.Imagen)
    (minReputacion : ℚ) (now : Int) : Except String PublicarResult :=
  match productorRepo.GetByID productorID with
  | .error _ => .error "productor no encontrado"
  | .ok (_, pro, productorRepo2) =>
    if !pro.PuedePublicar minReputacion then
      .error "el productor no esta autorizado para publicar productos"
    else
      match producto.NewProductoAgroecologico productoID nombre desc categoria
          tipo temporada ubicacion imagen productorID now with
      | .error e => .error e
      | .ok nuevoProducto =>
        let a := productoRepo.next
        let repoAlloc : repository.ProductoRepository :=
          { productoRepo with
            heap := (a, nuevoProducto) :: productoRepo.heap
            next := a + 1 }
        match repoAlloc.Save a with
        | .error e => .error e
        | .ok repoSaved =>
          .ok { productoAddr := a
                published := nuevoProducto.eventsPending
                productoRepo :=
                  { repoSaved with
                    heap := repository.heapSet repoSaved.heap a
                      { nuevoProducto with eventsPending := [] } }
                productorRepo := productorRepo2 }

end service

/-! Helper lemmas shared by the claim theorems. -/

/-- IsInSeason holds exactly when `now` lies in the closed window. -/
lemma isInSeason_iff (t : producto.TemporadaLocal) (now : Int) :
    t.IsInSeason now = true ↔ t.Inicio ≤ now ∧ now ≤ t.Fin := by
  simp only [producto.TemporadaLocal.IsInSeason, Bool.and_eq_true,
    Bool.or_eq_true, beq_iff_eq, decide_eq_true_eq]
  omega

/-- IsInSeason fails exactly when `now` lies strictly outside the window. -/
lemma isInSeason_eq_false_iff (t : producto.TemporadaLocal) (now : Int) :
    t.IsInSeason now = false ↔ now < t.Inicio ∨ t.Fin < now := by
  rw [← Bool.not_eq_true, isInSeason_iff]
  omega

/-- Reading back through the address just written yields the written value,
provided the address was allocated. -/
lemma heapGet_heapSet_self {α : Type} {h : List (repository.Addr × α)}
    {a : repository.Addr} {x : α} (hx : repository.heapGet h a = some x)
    (v : α) : repository.heapGet (repository.heapSet h a v) a = some v := by
  induction h with
  | nil => simp [repository.heapGet] at hx
  | cons e t ih =>
    by_cases he : e.1 = a
    · simp [repository.heapGet, repository.heapSet, he]
    · simp only [repository.heapGet, repository.heapSet, if_neg he] at hx ⊢
      exact ih hx

/-- Writing one address does not change reads of a different address. -/
lemma heapGet_heapSet_ne {α : Type} (h : List (repository.Addr × α))
    {a b : repository.Addr} (hab : b ≠ a) (v : α) :
    repository.heapGet (repository.heapSet h a v) b = repository.heapGet h b := by
  induction h with
  | nil => simp [repository.heapGet, repository.heapSet]
  | cons e t ih =>
    have hba : ¬a = b := fun h2 => hab h2.symm
    by_cases he : e.1 = a
    · have hb2 : ¬e.1 = b := by rw [he]; exact hba
      simp only [repository.heapGet, repository.heapSet, if_pos he,
        if_neg hba, if_neg hb2]
      exact ih
    · by_cases hb : e.1 = b
      · simp only [repository.heapGet, repository.heapSet, if_neg he,
          if_pos hb]
      · simp only [repository.heapGet, repository.heapSet, if_neg he,
          if_neg hb]
        exact ih

/-- A successfully read address occurs in the heap. -/
lemma heapGet_mem {α : Type} {h : List (repository.Addr × α)}
    {b : repository.Addr} {x : α} (hx : repository.heapGet h b = some x) :
    ∃ e ∈ h, e.1 = b := by
  induction h with
  | nil => simp [repository.heapGet] at hx
  | cons e t ih =>
    by_cases hb : e.1 = b
    · exact ⟨e, List.mem_cons_self e t, hb⟩
    · simp only [repository.heapGet, if_neg hb] at hx
      obtain ⟨e2, he2, hfst⟩ := ih hx
      exact ⟨e2, List.mem_cons_of_mem e he2, hfst⟩

/-- Looking up the key just inserted at the front of the map. -/
lemma lookupAddr_cons_self (m : List (String × repository.Addr))
    (id : String) (a : repository.Addr) :
    repository.lookupAddr ((id, a) :: m) id = some a := by
  simp [repository.lookupAddr]

/-- Reading the address just allocated at the front of the heap. -/
lemma heapGet_cons_self {α : Type} (a : repository.Addr) (v : α)
    (t : List (repository.Addr × α)) :
    repository.heapGet ((a, v) :: t) a = some v := by
  simp [repository.heapGet]

/-! Concrete fixtures used by counterexamples and witnesses. -/

/-- A Surplus product whose season window is the interval [0, 10]. -/
def c1SurplusProd : producto.ProductoAgroecologico :=
  { ID := "p1"
    Nombre := { Value := "Tomate" }
    Descripcion := { Value := "Tomates frescos" }
    Categoria := "Hortaliza"
    TipoProduccion := "Agroecologico"
    Temporada := { Inicio := 0, Fin := 10 }
    Estado := { Value := producto.Excedente }
    Ubicacion := { ZonaVeredal := "Vereda El Paraiso", Finca := "La Esperanza" }
    Imagen := { URL := "https://ejemplo.com/t.jpg", DescripcionCorta := "foto" }
    ProductorID := "prod1"
    publicadoEn := 0
    eventsPending := [] }

/-- An Available product with season window [0, 10], used by C3's witness. -/
def c3AvailableProd : producto.ProductoAgroecologico :=
  { c1SurplusProd with ID := "p3", Estado := { Value := producto.Disponible } }

/-! Claim theorems. -/

/-- C1 (counterexample): `recomputeAvailability` on a Surplus product at a
time inside its season window does change the state: the code's first branch
sets it to Disponible unconditionally, so Surplus is not preserved when `now`
is inside the window, contradicting the claim's "regardless of whether now is
inside or outside". -/
theorem recalcular_excedente_cex :
    c1SurplusProd.Estado.Value = producto.Excedente ∧
    (c1SurplusProd.RecalcularDisponibilidad 5).Estado.Value =
      producto.Disponible ∧
    producto.Disponible ≠ producto.Excedente := by
  refine ⟨rfl, rfl, ?_⟩
  decide

/-- C1 (amended): for a Surplus product, `recomputeAvailability(now)` leaves
the product entirely unchanged whenever `now` is outside the season window
(in particular it never reverts it to Available or Depleted there), it never
produces the Depleted state, but when `now` is inside the window it sets the
state to Available. -/
theorem recalcular_excedente_amended (p : producto.ProductoAgroecologico)
    (now : Int) (h : p.Estado.Value = producto.Excedente) :
    (p.Temporada.IsInSeason now = false →
      p.RecalcularDisponibilidad now = p) ∧
    (p.Temporada.IsInSeason now = true →
      (p.RecalcularDisponibilidad now).Estado.Value = producto.Disponible) ∧
    (p.RecalcularDisponibilidad now).Estado.Value ≠ producto.Agotado := by
  by_cases hs : p.Temporada.IsInSeason now
  · refine ⟨fun hc => by simp [hs] at hc, fun _ => ?_, ?_⟩
    · simp [producto.ProductoAgroecologico.RecalcularDisponibilidad, hs]
    · simp [producto.ProductoAgroecologico.RecalcularDisponibilidad, hs]
      decide
  · refine ⟨fun _ => ?_, fun hc => by simp [hs] at hc, ?_⟩
    · simp [producto.ProductoAgroecologico.RecalcularDisponibilidad, hs, h]
    · simp [producto.ProductoAgroecologico.RecalcularDisponibilidad, hs, h]
      decide

/-- C1 (amended, witness): the spec scenario — a Surplus product evaluated
before its season start stays exactly as it was. -/
theorem recalcular_excedente_amended_witness :
    c1SurplusProd.RecalcularDisponibilidad (-5) = c1SurplusProd :=
  (recalcular_excedente_amended c1SurplusProd (-5) rfl).1 (by decide)

/-- C9: `recomputeAvailability` is idempotent — applying it twice with the
same `now` yields the same product (hence the same availability state) as
applying it once. -/
theorem recalcular_idempotente (p : producto.ProductoAgroecologico)
    (now : Int) :
    (p.RecalcularDisponibilidad now).RecalcularDisponibilidad now =
      p.RecalcularDisponibilidad now := by
  by_cases hs : p.Temporada.IsInSeason now
  · simp [producto.ProductoAgroecologico.RecalcularDisponibilidad, hs]
  · by_cases he : p.Estado.Value = producto.Excedente
    · simp [producto.ProductoAgroecologico.RecalcularDisponibilidad, hs, he]
    · simp [producto.ProductoAgroecologico.RecalcularDisponibilidad, hs, he]

/-- C3: `markSurplus(now)` fails with the in-season invariant violation when
`now` lies inside the closed window [Inicio, Fin], and succeeds when `now` is
strictly outside it, setting the state to Excedente and queueing a
ProductoMarcadoComoExcedente event — from any starting state. -/
theorem marcar_excedente_contract (p : producto.ProductoAgroecologico)
    (now : Int) :
    (p.Temporada.Inicio ≤ now ∧ now ≤ p.Temporada.Fin →
      p.MarcarComoExcedente now =
        .error "no se puede marcar como Excedente dentro de la temporada") ∧
    (now < p.Temporada.Inicio ∨ p.Temporada.Fin < now →
      p.MarcarComoExcedente now = .ok { p with
        Estado := { Value := producto.Excedente }
        eventsPending := p.eventsPending ++
          [.marcadoComoExcedente { ProductoID := p.ID, At := now }] }) := by
  constructor
  · intro hin
    have hs : p.Temporada.IsInSeason now = true := (isInSeason_iff _ _).mpr hin
    simp [producto.ProductoAgroecologico.MarcarComoExcedente, hs]
  · intro hout
    have hs : p.Temporada.IsInSeason now = false :=
      (isInSeason_eq_false_iff _ _).mpr hout
    simp [producto.ProductoAgroecologico.MarcarComoExcedente, hs]

/-- C3 (witness): the spec scenario at concrete dates — marking surplus after
the window succeeds and yields state Excedente with the event queued. -/
theorem marcar_excedente_contract_witness :
    c3AvailableProd.MarcarComoExcedente 20 = .ok { c3AvailableProd with
      Estado := { Value := producto.Excedente }
      eventsPending := [.marcadoComoExcedente { ProductoID := "p3", At := 20 }] } :=
  (marcar_excedente_contract c3AvailableProd 20).2 (Or.inr (by decide))

/-- C6: season-window construction succeeds exactly when the end is not
before the start, not before `now`, and the span is at most 8760 hours (in
nanoseconds); in every other case it fails with a validation error. -/
theorem temporada_ctor_iff (inicio fin now : Int) :
    (producto.NewTemporadaLocal inicio fin now =
        .ok { Inicio := inicio, Fin := fin } ↔
      (inicio ≤ fin ∧ now ≤ fin ∧
        fin - inicio ≤ 8760 * 3600 * 1000000000)) ∧
    ((fin < inicio ∨ fin < now ∨ fin - inicio > 8760 * 3600 * 1000000000) →
      ∃ msg, producto.NewTemporadaLocal inicio fin now = .error msg) := by
  constructor
  · constructor
    · intro hok
      by_cases h1 : fin < inicio
      · simp [producto.NewTemporadaLocal, h1] at hok
      · by_cases h2 : fin < now
        · simp [producto.NewTemporadaLocal, h1, h2] at hok
        · by_cases h3 : fin - inicio > 8760 * 3600 * 1000000000
          · simp [producto.NewTemporadaLocal, h1, h2, h3] at hok
            omega
          · omega
    · intro ⟨h1, h2, h3⟩
      have h1' : ¬fin < inicio := by omega
      have h2' : ¬fin < now := by omega
      have h3' : ¬((31536000000000000 : Int) < fin - inicio) := by omega
      simp [producto.NewTemporadaLocal, h1', h2', h3']
  · intro hbad
    by_cases h1 : fin < inicio
    · exact ⟨"la fecha de fin no puede ser antes del inicio",
        by simp [producto.NewTemporadaLocal, h1]⟩
    · by_cases h2 : fin < now
      · exact ⟨"la fecha de fin no puede estar en el pasado",
          by simp [producto.NewTemporadaLocal, h1, h2]⟩
      · have h3 : (31536000000000000 : Int) < fin - inicio := by omega
        exact ⟨"la temporada no puede durar mas de un anio",
          by simp [producto.NewTemporadaLocal, h1, h2, h3]⟩

/-- C6 (witness): a concrete valid window and a concrete invalid one. -/
theorem temporada_ctor_iff_witness :
    producto.NewTemporadaLocal 0 10 5 = .ok { Inicio := 0, Fin := 10 } ∧
    ∃ msg, producto.NewTemporadaLocal 10 0 5 = .error msg :=
  ⟨(temporada_ctor_iff 0 10 5).1.mpr (by norm_num),
   (temporada_ctor_iff 10 0 5).2 (Or.inl (by norm_num))⟩

/-- An active, verified producer with reputation 4, used by witnesses. -/
def cActivePro : productor.Productor :=
  { ID := "prod1"
    Nombre := { Value := "Julian" }
    Ubicacion := { ZonaVeredal := "Vereda El Paraiso", Finca := "La Esperanza" }
    EstadoVerificacion := { Value := productor.Verificado }
    EstadoActividad := { Value := productor.Activo }
    Reputacion := 4
    PracticasCultivo := { Descripcion := "rotacion de cultivos" }
    eventsPending := [] }

/-- An inactive producer whose verification is in process, used by C10. -/
def cInactiveEnProcesoPro : productor.Productor :=
  { cActivePro with
    ID := "prod2"
    EstadoVerificacion := { Value := productor.EnProceso }
    EstadoActividad := { Value := productor.Inactivo } }

/-- C4: `updateReputation(r)` on an active producer succeeds exactly when
0 ≤ r ≤ 5 and fails with the range invariant violation otherwise; on a
producer that is not active it succeeds for every r; every success stores r
and queues a ReputacionActualizada event exactly when r differs from the
previous reputation. -/
theorem actualizar_reputacion_contract (pro : productor.Productor) (r : ℚ)
    (now : Int) :
    (pro.EstadoActividad.IsActivo = true →
      ((∃ pro2, pro.ActualizarReputacion r now = .ok pro2) ↔
        (0 ≤ r ∧ r ≤ 5))) ∧
    (pro.EstadoActividad.IsActivo = false →
      ∃ pro2, pro.ActualizarReputacion r now = .ok pro2) ∧
    (∀ pro2, pro.ActualizarReputacion r now = .ok pro2 →
      pro2.Reputacion = r ∧
      (r ≠ pro.Reputacion →
        pro2.eventsPending = pro.eventsPending ++
          [.reputacionActualizada
            { ProductorID := pro.ID, NuevaReputacion := r, At := now }]) ∧
      (r = pro.Reputacion → pro2.eventsPending = pro.eventsPending)) := by
  refine ⟨?_, ?_, ?_⟩
  · intro hact
    constructor
    · rintro ⟨pro2, hok⟩
      by_cases hr : r < 0 ∨ r > 5
      · have hcond : ((decide (r < 0) || decide (r > 5)) &&
            pro.EstadoActividad.IsActivo) = true := by
          rcases hr with hr | hr <;> simp [hr, hact]
        simp [productor.Productor.ActualizarReputacion, hcond] at hok
      · constructor <;> [skip; skip] <;> push_neg at hr <;> linarith [hr.1, hr.2]
    · intro ⟨h0, h5⟩
      have hcond : ((decide (r < 0) || decide (r > 5)) &&
          pro.EstadoActividad.IsActivo) = false := by
        simp [not_lt.mpr h0, not_lt.mpr h5]
      have hnc : ¬(((decide (r < 0) || decide (r > 5)) &&
          pro.EstadoActividad.IsActivo) = true) := by simp [hcond]
      simp only [productor.Productor.ActualizarReputacion, if_neg hnc]
      exact ⟨_, rfl⟩
  · intro hina
    have hcond : ((decide (r < 0) || decide (r > 5)) &&
        pro.EstadoActividad.IsActivo) = false := by
      simp [hina]
    have hnc : ¬(((decide (r < 0) || decide (r > 5)) &&
        pro.EstadoActividad.IsActivo) = true) := by simp [hcond]
    simp only [productor.Productor.ActualizarReputacion, if_neg hnc]
    exact ⟨_, rfl⟩
  · intro pro2 hok
    by_cases hcond : ((decide (r < 0) || decide (r > 5)) &&
        pro.EstadoActividad.IsActivo) = true
    · simp [productor.Productor.ActualizarReputacion, hcond] at hok
    · rw [productor.Productor.ActualizarReputacion,
        if_neg (by simpa using hcond)] at hok
      cases hok
      by_cases hne : pro.Reputacion ≠ r
      · refine ⟨rfl, fun _ => ?_, fun heq => absurd heq.symm hne⟩
        simp [hne]
      · push_neg at hne
        refine ⟨rfl, fun hne2 => absurd hne.symm hne2, fun _ => ?_⟩
        simp [hne]

/-- C4 (witness): updating an active producer from reputation 4 to 3
succeeds, and the success case stores 3 and queues the change event. -/
theorem actualizar_reputacion_contract_witness :
    (0 ≤ (3 : ℚ) ∧ (3 : ℚ) ≤ 5) ∧
    ∃ pro2, cActivePro.ActualizarReputacion 3 7 = .ok pro2 :=
  ⟨by norm_num,
   ((actualizar_reputacion_contract cActivePro 3 7).1 rfl).mpr (by norm_num)⟩

/-- C10: completing verification checks only the verification state — from
"En Proceso" it always succeeds and sets "Verificado", whatever the activity
state — while starting verification fails outright whenever the producer is
not active. -/
theorem verificar_solo_estado_verificacion (pro : productor.Productor)
    (now : Int) :
    (pro.EstadoVerificacion.IsEnProceso = true →
      pro.VerificarProductor now = .ok { pro with
        EstadoVerificacion := { Value := "Verificado" }
        eventsPending := pro.eventsPending ++
          [.verificado { ProductorID := pro.ID, At := now }] }) ∧
    (pro.EstadoActividad.IsActivo = false →
      pro.IniciarProcesosVerificacion now =
        .error "el productor no esta activo") := by
  constructor
  · intro hp
    simp [productor.Productor.VerificarProductor, hp]
  · intro hina
    simp [productor.Productor.IniciarProcesosVerificacion, hina]

/-- C10 (witness): an inactive producer in process is verified successfully,
while the same producer cannot start a (new) verification process. -/
theorem verificar_solo_estado_verificacion_witness :
    cInactiveEnProcesoPro.VerificarProductor 9 =
      .ok { cInactiveEnProcesoPro with
        EstadoVerificacion := { Value := "Verificado" }
        eventsPending := [.verificado { ProductorID := "prod2", At := 9 }] } ∧
    cInactiveEnProcesoPro.IniciarProcesosVerificacion 9 =
      .error "el productor no esta activo" :=
  ⟨(verificar_solo_estado_verificacion cInactiveEnProcesoPro 9).1 rfl,
   (verificar_solo_estado_verificacion cInactiveEnProcesoPro 9).2 rfl⟩

/-- C7: the Producer store's save overwrites the caller-supplied ID with the
freshly generated one (the Go `uuid.New()` value, here `genID`) before the
insert; on success the map binds `genID` to the caller's pointer and the
stored producer's ID field is `genID`, whatever `pro.ID` was. -/
theorem productor_save_assigns_id (st : repository.ProductorRepository)
    (addr : repository.Addr) (pro : productor.Productor) (genID : String)
    (h1 : repository.heapGet st.heap addr = some pro)
    (h2 : repository.lookupAddr st.productores genID = none) :
    (st.Save addr genID).1 = none ∧
    repository.lookupAddr (st.Save addr genID).2.productores genID =
      some addr ∧
    repository.heapGet (st.Save addr genID).2.heap addr =
      some { pro with ID := genID } := by
  rw [repository.ProductorRepository.Save, h1]
  simp only [h2]
  exact ⟨trivial, lookupAddr_cons_self _ _ _,
    heapGet_heapSet_self h1 { pro with ID := genID }⟩

/-- A producer repository fixture holding `cActivePro` at address 0 under a
caller-chosen key, used by C7's witness. -/
def c7Repo : repository.ProductorRepository :=
  { heap := [(0, cActivePro)], next := 1, productores := [] }

/-- C7 (witness): saving a producer whose caller-set ID is "prod1" under the
generated ID "uuid-1" stores it keyed and identified by "uuid-1". -/
theorem productor_save_assigns_id_witness :
    (c7Repo.Save 0 "uuid-1").1 = none ∧
    repository.lookupAddr (c7Repo.Save 0 "uuid-1").2.productores "uuid-1" =
      some 0 ∧
    repository.heapGet (c7Repo.Save 0 "uuid-1").2.heap 0 =
      some { cActivePro with ID := "uuid-1" } :=
  productor_save_assigns_id c7Repo 0 cActivePro "uuid-1" rfl rfl

/-- C8: the Product store's save is at-most-once per key — if the product's
ID is already bound it fails with the duplicate-key conflict error and, the
error branch returning no new state, the store is unchanged; if the ID is
free the insert succeeds, and a second save of another product carrying the
same ID then fails, so two saves of the same ID give exactly one success and
one conflict. -/
theorem producto_save_at_most_once (st : repository.ProductoRepository)
    (a1 a2 : repository.Addr)
    (p1 p2 : producto.ProductoAgroecologico)
    (h1 : repository.heapGet st.heap a1 = some p1)
    (h2 : repository.heapGet st.heap a2 = some p2)
    (hid : p2.ID = p1.ID) :
    ((∃ b, repository.lookupAddr st.productos p1.ID = some b) →
      st.Save a1 =
        .error ("El producto con id " ++ p1.ID ++ " ya existe")) ∧
    (repository.lookupAddr st.productos p1.ID = none →
      st.Save a1 =
        .ok { st with productos := (p1.ID, a1) :: st.productos } ∧
      repository.ProductoRepository.Save
          { st with productos := (p1.ID, a1) :: st.productos } a2 =
        .error ("El producto con id " ++ p2.ID ++ " ya existe")) := by
  constructor
  · rintro ⟨b, hb⟩
    simp only [repository.ProductoRepository.Save, h1, hb]
  · intro hnone
    constructor
    · simp only [repository.ProductoRepository.Save, h1, hnone]
    · simp only [repository.ProductoRepository.Save, h2, hid,
        lookupAddr_cons_self]

/-- A product repository fixture holding two distinct products that share
the ID "p1", at addresses 0 and 1, with an empty key map. -/
def c8Repo : repository.ProductoRepository :=
  { heap := [(0, c1SurplusProd), (1, { c1SurplusProd with publicadoEn := 9 })]
    next := 2
    productos := [] }

/-- A Disponible product used by C2's counterexample. -/
def c2ProdA : producto.ProductoAgroecologico :=
  { c1SurplusProd with ID := "px", Estado := { Value := producto.Disponible } }

/-- The same product after a caller-side mutation of its name. -/
def c2ProdB : producto.ProductoAgroecologico :=
  { c2ProdA with Nombre := { Value := "Cambiado" } }

/-- A product repository holding `c2ProdA` at address 0 under key "px". -/
def c2Repo : repository.ProductoRepository :=
  { heap := [(0, c2ProdA)], next := 1, productos := [("px", 0)] }

/-- A producer repository fixture used by C2's amended witness. -/
def c2SRepo : repository.ProductorRepository :=
  { heap := [(0, cActivePro)], next := 1, productores := [("pr1", 0)] }

/-- A mutated copy of `cActivePro`, written through a returned pointer. -/
def c2MutPro : productor.Productor :=
  { cActivePro with Nombre := { Value := "Otro" } }

/-- C2 (counterexample): the Product store's getByID returns the stored
pointer itself (`response := &prod; return *response`), not a copy — writing
through the returned address changes what a later getByID returns, so the
snapshot-copy claim fails for the Product store. -/
theorem producto_getByID_alias_cex :
    c2Repo.GetByID "px" = .ok (0, c2ProdA) ∧
    repository.ProductoRepository.GetByID
        { c2Repo with heap := repository.heapSet c2Repo.heap 0 c2ProdB }
        "px" = .ok (0, c2ProdB) ∧
    c2ProdB ≠ c2ProdA := by
  refine ⟨rfl, rfl, ?_⟩
  decide

/-- C2 (amended): both stores fail with a not-found error for an absent id.
The Producer store's getByID returns a freshly allocated snapshot copy:
writing any value through the returned address leaves what a later getByID
returns unchanged.  The Product store's getByID instead returns the stored
address itself, so it aliases the stored entity. -/
theorem getByID_contract (pst : repository.ProductoRepository)
    (sst : repository.ProductorRepository) (id : String) :
    (repository.lookupAddr pst.productos id = none →
      pst.GetByID id =
        .error ("No se ha encontrado del producto con id " ++ id)) ∧
    (∀ a p, repository.lookupAddr pst.productos id = some a →
      repository.heapGet pst.heap a = some p →
      pst.GetByID id = .ok (a, p)) ∧
    (repository.lookupAddr sst.productores id = none →
      sst.GetByID id =
        .error ("No se ha encontrado el productor con id " ++ id)) ∧
    (sst.WF → ∀ a pro st2, sst.GetByID id = .ok (a, pro, st2) →
      a = sst.next ∧ repository.heapGet st2.heap a = some pro ∧
      ∀ v, ∃ a3 st3,
        repository.ProductorRepository.GetByID
          { st2 with heap := repository.heapSet st2.heap a v } id =
          .ok (a3, pro, st3)) := by
  refine ⟨?_, ?_, ?_, ?_⟩
  · intro hnone
    simp only [repository.ProductoRepository.GetByID, hnone]
  · intro a p ha hp
    simp only [repository.ProductoRepository.GetByID, ha, hp]
  · intro hnone
    simp only [repository.ProductorRepository.GetByID, hnone]
  · intro hwf a pro st2 hok
    rw [repository.ProductorRepository.GetByID] at hok
    cases hl : repository.lookupAddr sst.productores id with
    | none => simp only [hl] at hok; simp at hok
    | some b =>
      simp only [hl] at hok
      cases hg : repository.heapGet sst.heap b with
      | none => simp only [hg] at hok; simp at hok
      | some pro3 =>
        simp only [hg] at hok
        simp only [Except.ok.injEq, Prod.mk.injEq] at hok
        obtain ⟨ha, hpro, hst2⟩ := hok
        subst ha
        subst hpro
        subst hst2
        refine ⟨rfl, by simp [repository.heapGet], ?_⟩
        intro v
        obtain ⟨e, he, hfst⟩ := heapGet_mem hg
        have hblt : b < sst.next := hfst ▸ hwf e he
        have hba : b ≠ sst.next := Nat.ne_of_lt hblt
        have hgm : repository.heapGet
            (repository.heapSet ((sst.next, pro3) :: sst.heap) sst.next v) b =
            some pro3 := by
          simp only [repository.heapSet, if_pos rfl]
          rw [repository.heapGet, if_neg (fun h2 => hba h2.symm)]
          rw [heapGet_heapSet_ne sst.heap hba v]
          exact hg
        simp only [repository.ProductorRepository.GetByID, hl, hgm]
        exact ⟨_, _, rfl⟩

/-- C2 (amended, witness): for the concrete producer store, getByID copies —
after overwriting the returned fresh address 1 with a mutated producer, a
later getByID still returns the originally stored producer. -/
theorem getByID_contract_witness :
    ∃ a3 st3, repository.ProductorRepository.GetByID
      { heap := repository.heapSet [(1, cActivePro), (0, cActivePro)] 1 c2MutPro
        next := 2
        productores := [("pr1", 0)] } "pr1" = .ok (a3, cActivePro, st3) :=
  ((getByID_contract c2Repo c2SRepo "pr1").2.2.2
    (by
      intro e he
      simp only [c2SRepo, List.mem_singleton] at he
      subst he
      decide) 1 cActivePro
    { heap := [(1, cActivePro), (0, cActivePro)]
      next := 2
      productores := [("pr1", 0)] } rfl).2.2 c2MutPro

/-- A producer repository binding "prod1" to `cActivePro`, used by C5. -/
def c5SRepo : repository.ProductorRepository :=
  { heap := [(0, cActivePro)], next := 1, productores := [("prod1", 0)] }

/-- A product repository in which the key "x" is already taken. -/
def c5PRepo : repository.ProductoRepository :=
  { heap := [(0, { c1SurplusProd with ID := "x" })]
    next := 1
    productos := [("x", 0)] }

/-- An empty product repository, used by C5's witness. -/
def c5EmptyPRepo : repository.ProductoRepository :=
  { heap := [], next := 0, productos := [] }

/-- C5 (counterexample): the producer exists and canPublish holds, yet
publishProduct does not succeed — the Save step's ConflictError for the
already-taken product ID "x" is propagated, so the claim's unconditional
"otherwise it constructs and saves ... and returns it" is false. -/
theorem publicar_producto_conflict_cex :
    cActivePro.PuedePublicar 4 = true ∧
    repository.lookupAddr c5SRepo.productores "prod1" = some 0 ∧
    service.PublicarProducto c5SRepo c5PRepo "prod1" "x"
        { Value := "Tomate" } { Value := "Tomates frescos" } "Hortaliza"
        "Agroecologico" { Inicio := 0, Fin := 10 }
        { ZonaVeredal := "V", Finca := "F" }
        { URL := "https://x", DescripcionCorta := "d" } 4 100 =
      .error "El producto con id x ya existe" := by
  refine ⟨by decide, rfl, rfl⟩

/-- C5 (amended): publishProduct fails with "productor no encontrado" when
the producer id is unbound; with the authorization error when the loaded
producer's canPublish is false (no product is saved, no state is returned);
when canPublish holds it constructs the product and propagates the
construction ValidationError (empty producer id) or the Save ConflictError
(product id already bound); only otherwise does it succeed, returning and
storing a product in state Disponible with its Published event drained. -/
theorem publicar_producto_contract
    (sst : repository.ProductorRepository)
    (pst : repository.ProductoRepository)
    (productorID productoID : String) (nombre : producto.NombreProducto)
    (desc : producto.DescripcionProducto) (categoria : producto.Categoria)
    (tipo : producto.TipoProduccion) (temporada : producto.TemporadaLocal)
    (ubicacion : producto.Ubicacion) (imagen : producto.Imagen)
    (minReputacion : ℚ) (now : Int) :
    (repository.lookupAddr sst.productores productorID = none →
      service.PublicarProducto sst pst productorID productoID nombre desc
          categoria tipo temporada ubicacion imagen minReputacion now =
        .error "productor no encontrado") ∧
    (∀ a pro sst2, sst.GetByID productorID = .ok (a, pro, sst2) →
      (pro.PuedePublicar minReputacion = false →
        service.PublicarProducto sst pst productorID productoID nombre desc
            categoria tipo temporada ubicacion imagen minReputacion now =
          .error "el productor no esta autorizado para publicar productos") ∧
      (pro.PuedePublicar minReputacion = true →
        (productorID = "" →
          service.PublicarProducto sst pst productorID productoID nombre desc
              categoria tipo temporada ubicacion imagen minReputacion now =
            .error "productorID cannot be empty") ∧
        (productorID ≠ "" →
          (∀ b, repository.lookupAddr pst.productos productoID = some b →
            service.PublicarProducto sst pst productorID productoID nombre
                desc categoria tipo temporada ubicacion imagen minReputacion
                now =
              .error ("El producto con id " ++ productoID ++ " ya existe")) ∧
          (repository.lookupAddr pst.productos productoID = none →
            ∃ res, service.PublicarProducto sst pst productorID productoID
                nombre desc categoria tipo temporada ubicacion imagen
                minReputacion now = .ok res ∧
              res.published =
                [.publicado { ProductoID := productoID, At := now }] ∧
              res.productoAddr = pst.next ∧
              repository.lookupAddr res.productoRepo.productos productoID =
                some pst.next ∧
              ∃ pFinal, repository.heapGet res.productoRepo.heap pst.next =
                  some pFinal ∧
                pFinal.Estado.Value = producto.Disponible ∧
                pFinal.ID = productoID ∧
                pFinal.ProductorID = productorID ∧
                pFinal.eventsPending = [])))) := by
  constructor
  · intro hnone
    rw [service.PublicarProducto, repository.ProductorRepository.GetByID]
    simp only [hnone]
  · intro a pro sst2 hok
    constructor
    · intro hfalse
      rw [service.PublicarProducto]
      simp only [hok, hfalse, Bool.not_false, if_pos]
    · intro htrue
      constructor
      · intro hempty
        rw [service.PublicarProducto]
        simp only [hok, htrue, Bool.not_true, Bool.false_eq_true, if_false,
          producto.NewProductoAgroecologico, if_pos hempty]
      · intro hne
        constructor
        · intro b hconf
          rw [service.PublicarProducto]
          simp only [hok, htrue, Bool.not_true, Bool.false_eq_true, if_false,
            producto.NewProductoAgroecologico, if_neg hne,
            repository.ProductoRepository.Save, heapGet_cons_self, hconf]
        · intro hfree
          rw [service.PublicarProducto]
          simp only [hok, htrue, Bool.not_true, Bool.false_eq_true, if_false,
            producto.NewProductoAgroecologico, if_neg hne,
            repository.ProductoRepository.Save, heapGet_cons_self, hfree]
          refine ⟨_, rfl, rfl, rfl, ?_, ?_⟩
          · exact lookupAddr_cons_self _ _ _
          · exact ⟨_, heapGet_heapSet_self (heapGet_cons_self _ _ _) _,
              rfl, rfl, rfl, rfl⟩

/-- C5 (amended, witness): the spec scenario — an active, verified producer
with reputation 4 publishes with minReputation 4 into an empty store; the
call succeeds and the stored product is Disponible with its Published event
drained. -/
theorem publicar_producto_contract_witness :
    ∃ res, service.PublicarProducto c5SRepo c5EmptyPRepo "prod1" "nx"
        { Value := "Tomate" } { Value := "Tomates frescos" } "Hortaliza"
        "Agroecologico" { Inicio := 0, Fin := 10 }
        { ZonaVeredal := "V", Finca := "F" }
        { URL := "https://x", DescripcionCorta := "d" } 4 100 = .ok res ∧
      res.published = [.publicado { ProductoID := "nx", At := 100 }] ∧
      res.productoAddr = c5EmptyPRepo.next ∧
      repository.lookupAddr res.productoRepo.productos "nx" =
        some c5EmptyPRepo.next ∧
      ∃ pFinal, repository.heapGet res.productoRepo.heap c5EmptyPRepo.next =
          some pFinal ∧
        pFinal.Estado.Value = producto.Disponible ∧
        pFinal.ID = "nx" ∧
        pFinal.ProductorID = "prod1" ∧
        pFinal.eventsPending = [] :=
  ((((publicar_producto_contract c5SRepo c5EmptyPRepo "prod1" "nx"
      { Value := "Tomate" } { Value := "Tomates frescos" } "Hortaliza"
      "Agroecologico" { Inicio := 0, Fin := 10 }
      { ZonaVeredal := "V", Finca := "F" }
      { URL := "https://x", DescripcionCorta := "d" } 4 100).2
    1 cActivePro
    { heap := [(1, cActivePro), (0, cActivePro)]
      next := 2
      productores := [("prod1", 0)] } rfl).2 (by decide)).2
    (by decide)).2 rfl

/-- C8 (witness): with the key "p1" free, the first save succeeds and the
second save of the other product with the same ID fails with the conflict
error. -/
theorem producto_save_at_most_once_witness :
    c8Repo.Save 0 =
      .ok { c8Repo with productos := [("p1", 0)] } ∧
    repository.ProductoRepository.Save
        { c8Repo with productos := [("p1", 0)] } 1 =
      .error "El producto con id p1 ya existe" :=
  (producto_save_at_most_once c8Repo 0 1 c1SurplusProd
    { c1SurplusProd with publicadoEn := 9 } rfl rfl rfl).2 rfl
